import Mathlib

/-!
Verification of the callingtrack repository's calling-lifecycle, permission,
form-validation and CSV-import logic, as a shallow embedding in Lean.

Conventions of the embedding:
* calendar dates are encoded as natural numbers (`Date`); only their ordering
  matters to the validation logic, and the CSV date parser encodes a parsed
  `m/d/y` as `y * 10000 + m * 100 + d`;
* Python `None` becomes `Option.none`; a Django `CharField`/`TextField` that
  may be blank is an `Option String` where `none` stands for absent-or-blank;
* Django querysets over a table are embedded as Lean lists of records, and
  `get_or_create` / `update_or_create` as explicit list operations keyed the
  way the source keys them;
* a counted, swallowed row-level error in the import commands is a branch of
  the row-processing function; an uncaught exception is an `Except.error`.
-/

abbrev Date := Nat

/-! ## Permission policy (`src/callings/permissions.py`) -/

/-- A user as the permission helpers see one: the superuser flag and the
names of the groups the user belongs to. -/
structure AppUser where
  is_superuser : Bool
  group_names : List String
deriving Repr, DecidableEq

def STAKE_PRESIDENT_GROUP : String := "Stake President"
def BISHOP_GROUP : String := "Bishop"
def CLERK_GROUP : String := "Clerk"
def STAKE_CLERK_GROUP : String := "Stake Clerk"
def LEADERSHIP_GROUP : String := "Leadership"

/-- `user_in_group`: membership test on the user's group names. -/
def user_in_group (u : AppUser) (g : String) : Bool :=
  u.group_names.contains g

def is_stake_president (u : AppUser) : Bool :=
  u.is_superuser || user_in_group u STAKE_PRESIDENT_GROUP

def is_bishop (u : AppUser) : Bool :=
  u.is_superuser || user_in_group u BISHOP_GROUP

def is_clerk (u : AppUser) : Bool :=
  u.is_superuser || user_in_group u CLERK_GROUP || user_in_group u STAKE_CLERK_GROUP

def is_leadership (u : AppUser) : Bool :=
  u.is_superuser || user_in_group u STAKE_PRESIDENT_GROUP ||
    user_in_group u BISHOP_GROUP || user_in_group u LEADERSHIP_GROUP

def can_edit_calling (u : AppUser) : Bool :=
  is_leadership u || is_clerk u

def can_approve_calling (u : AppUser) : Bool :=
  is_stake_president u || is_bishop u

def can_delete_calling (u : AppUser) : Bool :=
  u.is_superuser || is_stake_president u

def can_manage_units (u : AppUser) : Bool :=
  u.is_superuser || is_stake_president u || is_clerk u

/-! ## Calling lifecycle status side effect (claim C1) -/

/-- Modelled from the spec: the `Calling.save` status side effect.  The copy of
`src/callings/models.py` in the repository is an older schema revision whose
`Calling` class has no `save` override (and no PENDING/APPROVED values in its
`STATUS_CHOICES`); the behavior is fixed by spec §3 ("setting
`presidency_approved` while status is PENDING auto-advances status to APPROVED
(one-way, idempotent)") and asserted by `src/callings/tests.py`
(`test_auto_status_update_on_presidency_approval`,
`test_status_not_changed_if_not_pending`).  Only the two fields the side
effect reads and writes are modelled. -/
structure LifecycleCalling where
  status : String
  presidency_approved : Option Date
deriving Repr, DecidableEq

/-- Modelled from the spec: saving a calling applies the auto-approval side
effect — if `presidency_approved` is set and status is PENDING, status
becomes APPROVED; otherwise the record is stored as it is. -/
def callingSave (c : LifecycleCalling) : LifecycleCalling :=
  if c.presidency_approved.isSome && c.status == "PENDING" then
    { c with status := "APPROVED" }
  else
    c

/-- Assigning `calling.presidency_approved = d` before a save. -/
def setPresidencyApproved (c : LifecycleCalling) (d : Date) : LifecycleCalling :=
  { c with presidency_approved := some d }

/-! ## Calling forms (`src/callings/forms.py`) -/

/-- The fields of the `Calling` model that the validation and release paths
read or write (`src/callings/models.py`, new-schema fields used by
`CallingForm`, `CallingReleaseForm` and `CallingReleaseView`). -/
structure ModelCalling where
  date_called : Option Date
  date_sustained : Option Date
  date_set_apart : Option Date
  date_released : Option Date
  calling_status : String
  release_notes : Option String
deriving Repr, DecidableEq

/-- The first `CallingForm.clean` check:
`if date_sustained and date_called and date_sustained < date_called`. -/
def sustainedErr (date_sustained date_called : Option Date) : List (String × String) :=
  match date_sustained, date_called with
  | some ds, some dc =>
    if ds < dc then [("date_sustained", "Sustained date cannot be before called date")] else []
  | _, _ => []

/-- The second `CallingForm.clean` check:
`if date_set_apart and date_sustained and date_set_apart < date_sustained`. -/
def setApartErr (date_set_apart date_sustained : Option Date) : List (String × String) :=
  match date_set_apart, date_sustained with
  | some dsa, some ds =>
    if dsa < ds then [("date_set_apart", "Set apart date cannot be before sustained date")] else []
  | _, _ => []

/-- The third `CallingForm.clean` check:
`if date_released and date_called and date_released < date_called`. -/
def releasedErr (date_released date_called : Option Date) : List (String × String) :=
  match date_released, date_called with
  | some dr, some dc =>
    if dr < dc then [("date_released", "Released date cannot be before called date")] else []
  | _, _ => []

/-- The fourth `CallingForm.clean` check:
`if calling_status == 'ACTIVE' and date_released`. -/
def activeStatusErr (calling_status : String) (date_released : Option Date) :
    List (String × String) :=
  match date_released with
  | some _ =>
    if calling_status == "ACTIVE" then
      [("calling_status", "Active callings cannot have a release date")] else []
  | none => []

/-- The fifth `CallingForm.clean` check:
`if calling_status == 'RELEASED' and not date_released`. -/
def releasedStatusErr (calling_status : String) (date_released : Option Date) :
    List (String × String) :=
  match date_released with
  | none =>
    if calling_status == "RELEASED" then
      [("date_released", "Released callings must have a release date")] else []
  | some _ => []

/-- `CallingForm.clean`: the list of `(field, message)` validation errors added
for a given combination of cleaned date values and calling status, in source
order.  A `none` date is Python `None` (falsy), so a comparison involving it
is skipped. -/
def callingFormCleanErrors (date_called date_sustained date_set_apart date_released : Option Date)
    (calling_status : String) : List (String × String) :=
  sustainedErr date_sustained date_called ++
  setApartErr date_set_apart date_sustained ++
  releasedErr date_released date_called ++
  activeStatusErr calling_status date_released ++
  releasedStatusErr calling_status date_released

/-- Whether an error entry is one of the three date-ordering errors of
`CallingForm.clean` (as opposed to the status-consistency errors). -/
def isDateOrderError (e : String × String) : Bool :=
  e.2 == "Sustained date cannot be before called date" ||
  e.2 == "Set apart date cannot be before sustained date" ||
  e.2 == "Released date cannot be before called date"

/-- `CallingReleaseForm` validation: the form's only fields are
`date_released` and `release_notes`, both marked required in `__init__`; the
form defines no `clean` override, and the `Calling` model has no `clean`, so
these required-field checks are the entire validation.  Returns the list of
`(field, message)` errors. -/
def releaseFormErrors (date_released : Option Date) (release_notes : Option String) :
    List (String × String) :=
  (match date_released with
   | none => [("date_released", "This field is required.")]
   | some _ => []) ++
  (match release_notes with
   | none => [("release_notes", "This field is required.")]
   | some _ => [])

/-- `CallingReleaseView.form_valid` composed with the form machinery: model
form validation first copies the cleaned `date_released` and `release_notes`
onto the instance, then the view sets `calling_status = 'RELEASED'` and
overwrites `date_released` with `timezone.now().date()` (`today`), and the
instance is saved. -/
def releaseFormSubmit (c : ModelCalling) (submitted_date_released : Date)
    (submitted_release_notes : String) (today : Date) : ModelCalling :=
  let inst := { c with date_released := some submitted_date_released,
                       release_notes := some submitted_release_notes }
  { inst with calling_status := "RELEASED", date_released := some today }

/-! ## Shared helpers for the CSV import commands -/

/-- Python `str.strip()`'s whitespace set. -/
def isSpaceChar (c : Char) : Bool :=
  c == ' ' || c == '\t' || c == '\n' || c == '\r' || c == '\x0b' || c == '\x0c'

/-- Python `str.strip()`. -/
def pyStrip (s : String) : String :=
  ⟨((s.toList.dropWhile isSpaceChar).reverse.dropWhile isSpaceChar).reverse⟩

def lowerChar (c : Char) : Char :=
  if c.toNat ≥ 65 && c.toNat ≤ 90 then Char.ofNat (c.toNat + 32) else c

def upperChar (c : Char) : Char :=
  if c.toNat ≥ 97 && c.toNat ≤ 122 then Char.ofNat (c.toNat - 32) else c

/-- Python `str.lower()` (ASCII, which covers this data). -/
def strLower (s : String) : String := ⟨s.toList.map lowerChar⟩

/-- Python `str.upper()` (ASCII). -/
def strUpper (s : String) : String := ⟨s.toList.map upperChar⟩

/-- Python `sep.join(parts)`. -/
def strJoin (sep : String) : List String → String
  | [] => ""
  | [x] => x
  | x :: y :: rest => x ++ sep ++ strJoin sep (y :: rest)

/-- Whether the character list starts with the pattern. -/
def charsStartWith : List Char → List Char → Bool
  | _, [] => true
  | [], _ :: _ => false
  | c :: cs, p :: ps => c == p && charsStartWith cs ps

/-- Whether the pattern occurs somewhere in the character list. -/
def charsContains : List Char → List Char → Bool
  | [], pat => pat.isEmpty
  | c :: cs, pat => charsStartWith (c :: cs) pat || charsContains cs pat

/-- Python substring test `pat in hay`. -/
def strContains (hay pat : String) : Bool :=
  charsContains hay.toList pat.toList

/-- Split a character list on a separator character (Python `str.split(sep)`
for a one-character separator). -/
def splitOnChar (sep : Char) : List Char → List (List Char)
  | [] => [[]]
  | c :: cs =>
    if c == sep then [] :: splitOnChar sep cs
    else
      match splitOnChar sep cs with
      | [] => [[c]]
      | h :: t => (c :: h) :: t

/-- Python truthiness of an optional string: `None` and the empty string are
falsy. -/
def pyFalsy (s : Option String) : Bool :=
  match s with
  | none => true
  | some str => str == ""

/-- The date-like-name guard of `import_completed_callings`:
`any(c.isdigit() for c in name) and any(c in name for c in ['/', '-'])`. -/
def looks_like_date (name : String) : Bool :=
  name.toList.any (fun c => c.isDigit) && name.toList.any (fun c => c == '/' || c == '-')

def isLeapYear (y : Nat) : Bool :=
  y % 4 == 0 && (y % 100 != 0 || y % 400 == 0)

def daysInMonth (m y : Nat) : Nat :=
  if m == 2 then (if isLeapYear y then 29 else 28)
  else if m == 4 || m == 6 || m == 9 || m == 11 then 30
  else 31

/-- Encoding of a parsed calendar date as a single natural number; the
encoding is injective and monotone in (year, month, day). -/
def mkDate (y m d : Nat) : Date :=
  y * 10000 + m * 100 + d

/-- The numeric value of an all-digit field (`None` on an empty or non-digit
field). -/
def digitsVal : List Char → Nat → Option Nat
  | [], acc => some acc
  | c :: cs, acc => if c.isDigit then digitsVal cs (acc * 10 + (c.toNat - 48)) else none

def digitsToNat? (cs : List Char) : Option Nat :=
  match cs with
  | [] => none
  | _ => digitsVal cs 0

/-- One `strptime` month/day/year attempt from already-split fields: 1–2 digit
month and day, 1–4 digit year, with calendar range checks. -/
def parseMDYparts (ms ds ys : List Char) : Option Date :=
  if ms.length == 0 || ms.length > 2 || ds.length == 0 || ds.length > 2 ||
      ys.length == 0 || ys.length > 4 then none
  else
    match digitsToNat? ms, digitsToNat? ds, digitsToNat? ys with
    | some m, some d, some y =>
      if 1 ≤ m && m ≤ 12 && 1 ≤ d && d ≤ daysInMonth m y then some (mkDate y m d) else none
    | _, _, _ => none

/-- `strptime(s, "%m<sep>%d<sep>%Y")` for a one-character separator. -/
def parseMDY (str : String) (sep : Char) : Option Date :=
  match splitOnChar sep str.toList with
  | [ms, ds, ys] => parseMDYparts ms ds ys
  | _ => none

/-- `strptime(s, "%Y-%m-%d")`. -/
def parseYMD (str : String) : Option Date :=
  match splitOnChar '-' str.toList with
  | [ys, ms, ds] => parseMDYparts ms ds ys
  | _ => none

/-- `parse_date` of `import_completed_callings`: `%m/%d/%Y`, then `%m-%d-%Y`,
`None`/empty/unparsable input becomes `None`. -/
def ccParseDate (s : Option String) : Option Date :=
  match s with
  | none => none
  | some str => if str == "" then none else (parseMDY str '/').orElse (fun _ => parseMDY str '-')

/-- `Command.parse_date` of `import_callings`: `%m/%d/%Y`, then `%Y-%m-%d`. -/
def icParseDate (s : Option String) : Option Date :=
  match s with
  | none => none
  | some str => if str == "" then none else (parseMDY str '/').orElse (fun _ => parseYMD str)

/-- Django `Model.objects.get_or_create`: return the table unchanged when a
record matches the lookup key, otherwise append the freshly built record.  The
second component is the `created` flag.  (Django's call returns the single
matching row; every key used by the import commands is unique by
construction, so the list form agrees.) -/
def djangoGetOrCreate (key : α → Bool) (mk : α) (xs : List α) : List α × Bool :=
  if xs.any key then (xs, false) else (xs ++ [mk], true)

/-- Django `Model.objects.update_or_create`: overwrite the matching record
with the new field values, or append it.  Second component is `created`. -/
def djangoUpdateOrCreate (key : α → Bool) (data : α) (xs : List α) : List α × Bool :=
  if xs.any key then (xs.map fun x => if key x then data else x, false)
  else (xs ++ [data], true)

/-! ## The completed-callings importer
(`src/callings/management/commands/import_completed_callings.py`) -/

/-- A row of the `Unit` table as the importers see it. -/
structure URec where
  name : String
  unit_type : String
deriving Repr, DecidableEq

/-- A row of the `Organization` table (keyed by its unique name). -/
structure ORec where
  name : String
deriving Repr, DecidableEq

/-- A row of the `Position` table as `import_completed_callings` keys it
(title only, per the unique-title schema). -/
structure PRec where
  title : String
  is_leadership : Bool
deriving Repr, DecidableEq

/-- The `Calling` fields `import_completed_callings` writes.  Related objects
are identified by their natural keys (names/titles). -/
structure CCalling where
  name : String
  position : String
  organization : String
  unit : String
  status : String
  calling_status : String
  date_called : Option Date
  date_sustained : Option Date
  date_set_apart : Option Date
  date_released : Option Date
  presidency_approved : Option Date
  hc_approved : Option Date
  lcr_updated : Bool
  released_by : Option String
  proposed_replacement : Option String
  home_unit : Option String
  called_by : Option String
  bishop_consulted_by : Option String
  notes : String
deriving Repr, DecidableEq

/-- The entity store as `import_completed_callings` touches it. -/
structure CStore where
  units : List URec
  orgs : List ORec
  positions : List PRec
  callings : List CCalling
deriving Repr, DecidableEq

def emptyCStore : CStore := ⟨[], [], [], []⟩

/-- The statistics dictionary of `import_completed_callings.Command.handle`. -/
structure CStats where
  rows_processed : Nat
  rows_skipped : Nat
  units_created : Nat
  organizations_created : Nat
  positions_created : Nat
  callings_created : Nat
  callings_updated : Nat
deriving Repr, DecidableEq

def initCStats : CStats := ⟨0, 0, 0, 0, 0, 0, 0⟩

/-- Row normalization of `import_completed_callings`: strip each cell, turn
blank cells into `None`, and pad the row with `None` up to the expected 17
columns. -/
def normalizeRow (row : List String) : List (Option String) :=
  let r := row.map fun cell => let s := pyStrip cell; if s == "" then none else some s
  r ++ List.replicate (17 - r.length) none

/-- `row[i]` on a normalized row (in the source the row is padded to 17
columns first, so the literal indices used are always in bounds). -/
def cellAt (r : List (Option String)) (i : Nat) : Option String :=
  (r.getD i none)

/-- The carry-forward step of `import_completed_callings`: a non-empty Unit or
Organization cell replaces the carried value, an empty one inherits it.  The
carried organization is NOT touched when the unit changes. -/
def ccCarryStep (cu co : Option String) (c0 c1 : Option String) :
    Option String × Option String :=
  (match c0 with | some s => some (pyStrip s) | none => cu,
   match c1 with | some s => some (pyStrip s) | none => co)

/-- Key of `Unit.objects.get_or_create(name=...)`. -/
def unitKey (n : String) (u : URec) : Bool := u.name == n

/-- Key of `Organization.objects.get_or_create(name=...)`. -/
def orgKey (n : String) (o : ORec) : Bool := o.name == n

/-- Key of `Position.objects.get_or_create(title=...)` (completed importer). -/
def posTitleKey (t : String) (p : PRec) : Bool := p.title == t

/-- Key of the completed importer's
`Calling.objects.update_or_create(name=, position=, organization=, unit=)`. -/
def sameCallingKey (a c : CCalling) : Bool :=
  c.name == a.name && c.position == a.position && c.organization == a.organization &&
    c.unit == a.unit

/-- Unit-type inference and the Unit/Organization `get_or_create` pair that
the completed importer runs before it looks at the Position column. -/
def ccResolveUnitOrg (store : CStore) (stats : CStats) (u o : String) : CStore × CStats :=
  let ty := if strContains (strLower u) "stake" then "STAKE"
            else if strContains (strLower u) "ward" then "WARD" else "BRANCH"
  let gu := djangoGetOrCreate (unitKey u) ⟨u, ty⟩ store.units
  let go := djangoGetOrCreate (orgKey o) ⟨o⟩ store.orgs
  ({ store with units := gu.1, orgs := go.1 },
   { stats with
      units_created := stats.units_created + (if gu.2 then 1 else 0),
      organizations_created := stats.organizations_created + (if go.2 then 1 else 0) })

/-- An optional cell filtered through the source's
`if value and value.lower() not in ['n/a', '']` pattern, stripped. -/
def naFiltered (s : Option String) : Option String :=
  match s with
  | none => none
  | some str => if strLower str == "n/a" || strLower str == "" then none else some (pyStrip str)

/-- The `calling_data` dictionary the completed importer builds for a row. -/
def ccBuildCalling (u o pt member_name : String) (r : List (Option String)) : CCalling :=
  let released_by := naFiltered (cellAt r 4)
  let proposed_replacement := naFiltered (cellAt r 6)
  let home_unit := naFiltered (cellAt r 7)
  let called_by := naFiltered (cellAt r 12)
  let bishop_consulted_by := naFiltered (cellAt r 9)
  let notes_parts :=
    ["Imported from completed callings."] ++
    (match released_by with
     | some x => ["Released by: " ++ x]
     | none => []) ++
    (match proposed_replacement with
     | some x => ["Proposed replacement: " ++ x]
     | none => []) ++
    (match home_unit with
     | some x => ["Home unit: " ++ x]
     | none => [])
  { name := member_name
    position := pt
    organization := o
    unit := u
    status := "COMPLETED"
    calling_status := "RELEASED"
    date_called := ccParseDate (cellAt r 13)
    date_sustained := ccParseDate (cellAt r 14)
    date_set_apart := ccParseDate (cellAt r 15)
    date_released := ccParseDate (cellAt r 5)
    presidency_approved := ccParseDate (cellAt r 8)
    hc_approved := ccParseDate (cellAt r 11)
    lcr_updated := (match cellAt r 16 with | some s => strLower s == "true" | none => false)
    released_by := released_by
    proposed_replacement := proposed_replacement
    home_unit := home_unit
    called_by := called_by
    bishop_consulted_by := bishop_consulted_by
    notes := strJoin " " notes_parts }

/-- From the Position column on: position `get_or_create`, holder-name
checks (presence, placeholder values, the date-like guard), and the final
`update_or_create` of the Calling, with the associated counters. -/
def ccProcessBody (store : CStore) (stats : CStats) (u o : String)
    (r : List (Option String)) : CStore × CStats :=
  match cellAt r 2 with
  | none => (store, { stats with rows_skipped := stats.rows_skipped + 1 })
  | some position_title =>
    let lead := ["president", "bishop", "counselor", "secretary", "clerk"].any
      (fun t => strContains (strLower position_title) t)
    let gp := djangoGetOrCreate (posTitleKey position_title) ⟨position_title, lead⟩ store.positions
    let store1 := { store with positions := gp.1 }
    let stats1 := { stats with
      positions_created := stats.positions_created + (if gp.2 then 1 else 0) }
    match cellAt r 3 with
    | none => (store1, { stats1 with rows_skipped := stats1.rows_skipped + 1 })
    | some member_name0 =>
      if ["", "n/a", "vacant"].contains (pyStrip (strLower member_name0)) then
        (store1, { stats1 with rows_skipped := stats1.rows_skipped + 1 })
      else
        let member_name := pyStrip member_name0
        if looks_like_date member_name then
          (store1, { stats1 with rows_skipped := stats1.rows_skipped + 1 })
        else
          let data := ccBuildCalling u o position_title member_name r
          let uc := djangoUpdateOrCreate (sameCallingKey data) data store1.callings
          ({ store1 with callings := uc.1 },
           { stats1 with
              callings_created := stats1.callings_created + (if uc.2 then 1 else 0),
              callings_updated := stats1.callings_updated + (if uc.2 then 0 else 1),
              rows_processed := stats1.rows_processed + 1 })

/-- The result of processing one data row: updated store, statistics, and the
carried Unit/Organization state. -/
structure CResult where
  store : CStore
  stats : CStats
  cu : Option String
  co : Option String
deriving Repr, DecidableEq

/-- One iteration of the data-row loop of
`import_completed_callings.Command.handle`: skip fully-blank rows uncounted,
normalize cells, carry Unit/Organization forward, skip (counted) when either
is still missing, then resolve entities and reconcile the Calling. -/
def processCompletedRow (store : CStore) (stats : CStats) (cu co : Option String)
    (row : List String) : CResult :=
  if row.any (fun c => c != "") = false then ⟨store, stats, cu, co⟩
  else
    let r := normalizeRow row
    let cc := ccCarryStep cu co (cellAt r 0) (cellAt r 1)
    if pyFalsy cc.1 || pyFalsy cc.2 then
      ⟨store, { stats with rows_skipped := stats.rows_skipped + 1 }, cc.1, cc.2⟩
    else
      let u := cc.1.getD ""
      let o := cc.2.getD ""
      let ro := ccResolveUnitOrg store stats u o
      let bo := ccProcessBody ro.1 ro.2 u o r
      ⟨bo.1, bo.2, cc.1, cc.2⟩

/-! ## The active-callings importer
(`src/callings/management/commands/import_callings.py`) -/

/-- A `Member` row as `import_callings` keys it (`get_or_create(name=...)`,
`home_unit` default). -/
structure MRec where
  name : String
  home_unit : Option String
deriving Repr, DecidableEq

/-- A `Position` row as `import_callings` keys it
(`get_or_create(title=..., organization=...)`). -/
structure ICPos where
  title : String
  organization : String
  is_leadership : Bool
deriving Repr, DecidableEq

/-- The `Calling` fields `import_callings.create_new_calling` writes. -/
structure ICCalling where
  unit : String
  position_title : String
  position_org : String
  member : String
  status : String
  called_by : Option String
  date_called : Option Date
  date_sustained : Option Date
  date_set_apart : Option Date
  presidency_approved : Option Date
  hc_approved : Option Date
  bishop_consulted_by : Option String
  lcr_updated : Bool
  notes : String
deriving Repr, DecidableEq

/-- The entity store as `import_callings` touches it. -/
structure ICStore where
  units : List URec
  orgs : List ORec
  positions : List ICPos
  members : List MRec
  callings : List ICCalling
deriving Repr, DecidableEq

def emptyICStore : ICStore := ⟨[], [], [], [], []⟩

/-- The statistics dictionary of `import_callings.Command.handle`. -/
structure ICStats where
  units_created : Nat
  organizations_created : Nat
  positions_created : Nat
  members_created : Nat
  callings_created : Nat
  callings_updated : Nat
  rows_processed : Nat
  rows_skipped : Nat
deriving Repr, DecidableEq

def initICStats : ICStats := ⟨0, 0, 0, 0, 0, 0, 0, 0⟩

/-- `Command.get_unit_type`: substring match on the lowercased name, STAKE
before BRANCH, default WARD. -/
def icGetUnitType (unit_name : String) : String :=
  if strContains (strLower unit_name) "stake" then "STAKE"
  else if strContains (strLower unit_name) "branch" then "BRANCH"
  else "WARD"

/-- `Command.is_leadership_position`: fixed keyword list (this command also
includes "executive"). -/
def icIsLeadershipTitle (position_title : String) : Bool :=
  ["president", "bishop", "counselor", "secretary", "clerk", "executive"].any
    (fun t => strContains (strLower position_title) t)

/-- `row[i] if len(row) > i and row[i] else None` on a stripped row. -/
def cellOpt (row : List String) (i : Nat) : Option String :=
  let s := row.getD i ""
  if s == "" then none else some s

/-- `Command.get_or_create_member` for a non-empty name: `get_or_create`
keyed on the name alone, with the acting unit as default `home_unit`; when the
member already exists with no home unit, the home unit is filled in and
saved. -/
def getOrCreateMember (ms : List MRec) (name : String) (homeUnit : String) :
    List MRec × Bool :=
  if ms.any (fun m => m.name == name) then
    (ms.map fun m =>
      if m.name == name && m.home_unit == none then { m with home_unit := some homeUnit }
      else m, false)
  else (ms ++ [⟨name, some homeUnit⟩], true)

/-- Key of `Calling.objects.get(unit=, position=, member=, status='ACTIVE')`
and of `create_new_calling`'s `get_or_create`. -/
def icCallingKey (u pt po m : String) (c : ICCalling) : Bool :=
  c.unit == u && c.position_title == pt && c.position_org == po && c.member == m &&
    c.status == "ACTIVE"

/-- `Command.release_existing_calling`: `.get(...)` the unique ACTIVE calling
and set its status to RELEASED.  `DoesNotExist` is swallowed inside the
method; more than one match raises `MultipleObjectsReturned`, which escapes to
the caller's per-row handler (third component `raised`). -/
def releaseExistingCalling (cs : List ICCalling) (u pt po m : String) :
    List ICCalling × Bool × Bool :=
  match (cs.filter (icCallingKey u pt po m)).length with
  | 0 => (cs, false, false)
  | 1 => (cs.map fun c => if icCallingKey u pt po m c then { c with status := "RELEASED" } else c,
          true, false)
  | _ => (cs, false, true)

/-- `Command.create_new_calling`: resolve the optional `called_by` (row 11)
and `bishop_consulted_by` (row 9) members — each bumping `members_created`
whenever the name is present, exactly as the source does — read the
LCR flag from row 15, and `get_or_create` the ACTIVE calling. -/
def createNewCalling (store : ICStore) (stats : ICStats) (u pt po m : String)
    (row : List String) (today : String) : ICStore × ICStats :=
  let called_by_name := cellOpt row 11
  let s1 :=
    match called_by_name with
    | some n =>
      let g := getOrCreateMember store.members n u
      ({ store with members := g.1 },
       { stats with members_created := stats.members_created + 1 })
    | none => (store, stats)
  let store := s1.1
  let stats := s1.2
  let bishop_name := cellOpt row 9
  let s2 :=
    match bishop_name with
    | some n =>
      let g := getOrCreateMember store.members n u
      ({ store with members := g.1 },
       { stats with members_created := stats.members_created + 1 })
    | none => (store, stats)
  let store := s2.1
  let stats := s2.2
  let lcr_updated := strUpper (row.getD 15 "") == "TRUE"
  let data : ICCalling :=
    { unit := u
      position_title := pt
      position_org := po
      member := m
      status := "ACTIVE"
      called_by := called_by_name
      date_called := icParseDate (row.get? 5)
      date_sustained := icParseDate (row.get? 13)
      date_set_apart := icParseDate (row.get? 14)
      presidency_approved := icParseDate (row.get? 8)
      hc_approved := icParseDate (row.get? 10)
      bishop_consulted_by := bishop_name
      lcr_updated := lcr_updated
      notes := "Imported from CSV on " ++ today }
  let g := djangoGetOrCreate (icCallingKey u pt po m) data store.callings
  ({ store with callings := g.1 },
   if g.2 then { stats with callings_created := stats.callings_created + 1 } else stats)

/-- The body of `import_callings`'s per-row `try` block: Unit, Organization
and Position resolution, the released-member branch, and the called-member
branch.  Third component: an exception escaped (partial mutations are kept,
as the store is not rolled back). -/
def icTryBlock (store : ICStore) (stats : ICStats) (u o pt : String)
    (row : List String) (today : String) : ICStore × ICStats × Bool :=
  let gu := djangoGetOrCreate (unitKey u) ⟨u, icGetUnitType u⟩ store.units
  let store := { store with units := gu.1 }
  let stats := if gu.2 then { stats with units_created := stats.units_created + 1 } else stats
  let go := djangoGetOrCreate (orgKey o) ⟨o⟩ store.orgs
  let store := { store with orgs := go.1 }
  let stats := if go.2 then
    { stats with organizations_created := stats.organizations_created + 1 } else stats
  let gp := djangoGetOrCreate (fun p => p.title == pt && p.organization == o)
    ⟨pt, o, icIsLeadershipTitle pt⟩ store.positions
  let store := { store with positions := gp.1 }
  let stats := if gp.2 then
    { stats with positions_created := stats.positions_created + 1 } else stats
  let rel :=
    match cellOpt row 3 with
    | some rname =>
      let g := getOrCreateMember store.members rname u
      let store := { store with members := g.1 }
      let stats := { stats with members_created := stats.members_created + 1 }
      let r := releaseExistingCalling store.callings u pt o rname
      if r.2.2 then (store, stats, true)
      else ({ store with callings := r.1 },
            (if r.2.1 then { stats with callings_updated := stats.callings_updated + 1 }
             else stats), false)
    | none => (store, stats, false)
  if rel.2.2 then rel
  else
    let store := rel.1
    let stats := rel.2.1
    match cellOpt row 6 with
    | some cname =>
      let home :=
        match cellOpt row 7 with
        | some hn =>
          let g := djangoGetOrCreate (unitKey hn) ⟨hn, icGetUnitType hn⟩ store.units
          ({ store with units := g.1 }, hn)
        | none => (store, u)
      let store := home.1
      let g := getOrCreateMember store.members cname home.2
      let store := { store with members := g.1 }
      let stats := { stats with members_created := stats.members_created + 1 }
      let fin := createNewCalling store stats u pt o cname row today
      (fin.1, fin.2, false)
    | none => (store, stats, false)

/-- The carry-forward step of `import_callings` (run on the stripped cells
`row[0]` and `row[1]`): a non-empty Unit cell replaces the carried unit AND
clears the carried organization before the Organization cell is read. -/
def icCarryStep (cu co : Option String) (c0 c1 : String) :
    Option String × Option String :=
  let cu1 := if c0 != "" then some c0 else cu
  let co1 := if c0 != "" then none else co
  (cu1, if c1 != "" then some c1 else co1)

/-- The result of one `import_callings` row: store, statistics, and the
carried Unit/Organization strings. -/
structure ICResult where
  store : ICStore
  stats : ICStats
  cu : Option String
  co : Option String
deriving Repr, DecidableEq

/-- One iteration of the data-row loop of `import_callings.Command.handle`.
The row counter, the blank-row skip, the cell stripping, the carry-forward
update and the required-field check happen OUTSIDE the `try` block, so the
unguarded `row[0]`/`row[1]`/`row[2]` accesses there surface as
`Except.error` (an uncaught `IndexError` aborting the whole run); an
exception inside the `try` block is caught and the row is merely counted as
skipped. -/
def icProcessRow (store : ICStore) (stats : ICStats) (cu co : Option String)
    (row : List String) (today : String) : Except String ICResult :=
  let stats := { stats with rows_processed := stats.rows_processed + 1 }
  if row.any (fun c => c != "") = false then
    .ok ⟨store, { stats with rows_skipped := stats.rows_skipped + 1 }, cu, co⟩
  else
    let row := row.map pyStrip
    match row.get? 0 with
    | none => .error "IndexError: row[0]"
    | some c0 =>
      match row.get? 1 with
      | none => .error "IndexError: row[1]"
      | some c1 =>
        let cc := icCarryStep cu co c0 c1
        let cu1 := cc.1
        let co2 := cc.2
        if pyFalsy cu1 || pyFalsy co2 then
          .ok ⟨store, { stats with rows_skipped := stats.rows_skipped + 1 }, cu1, co2⟩
        else
          match row.get? 2 with
          | none => .error "IndexError: row[2]"
          | some c2 =>
            if c2 == "" then
              .ok ⟨store, { stats with rows_skipped := stats.rows_skipped + 1 }, cu1, co2⟩
            else
              let tb := icTryBlock store stats (cu1.getD "") (co2.getD "") c2 row today
              if tb.2.2 then
                .ok ⟨tb.1, { tb.2.1 with rows_skipped := tb.2.1.rows_skipped + 1 }, cu1, co2⟩
              else
                .ok ⟨tb.1, tb.2.1, cu1, co2⟩

/-- `Command.create_default_data`: get-or-create the default stake (no
counter is touched; this runs before the statistics are collected). -/
def icDefaultData (store : ICStore) : ICStore :=
  { store with
    units := (djangoGetOrCreate (unitKey "Twin Falls Stake") ⟨"Twin Falls Stake", "STAKE"⟩
      store.units).1 }

/-- The data-row loop, threading store, statistics and carry state and
propagating an uncaught exception. -/
def icRunRows (store : ICStore) (stats : ICStats) (cu co : Option String)
    (rows : List (List String)) (today : String) : Except String (ICStore × ICStats) :=
  match rows with
  | [] => .ok (store, stats)
  | row :: rest =>
    match icProcessRow store stats cu co row today with
    | .error e => .error e
    | .ok r => icRunRows r.store r.stats r.cu r.co rest today

/-- `import_callings.Command.handle` on an existing file, after the
three-line preamble: default data, then the data-row loop from empty carry
state.  `.ok` means the command reached its summary printout. -/
def icRun (store : ICStore) (rows : List (List String)) (today : String) :
    Except String (ICStore × ICStats) :=
  icRunRows (icDefaultData store) initICStats none none rows today

/-- Whether a run completed rather than aborting with an uncaught
exception. -/
def isOkE (r : Except ε α) : Bool :=
  match r with
  | .ok _ => true
  | .error _ => false

/-- The `rows_skipped` counter of a finished `import_callings` run. -/
def icRunSkipped (r : Except String (ICStore × ICStats)) : Option Nat :=
  match r with
  | .ok (_, st) => some st.rows_skipped
  | .error _ => none

/-- The `members_created` counter of a finished run. -/
def icRunMembersCreated (r : Except String (ICStore × ICStats)) : Option Nat :=
  match r with
  | .ok (_, st) => some st.members_created
  | .error _ => none

/-- The member names held in the store after a finished run. -/
def icRunMemberNames (r : Except String (ICStore × ICStats)) : Option (List String) :=
  match r with
  | .ok (s, _) => some (s.members.map (fun m => m.name))
  | .error _ => none

/-- The holder names of the callings in the store after a finished run. -/
def icRunCallingMembers (r : Except String (ICStore × ICStats)) : Option (List String) :=
  match r with
  | .ok (s, _) => some (s.callings.map (fun c => c.member))
  | .error _ => none

/-- Running `import_callings` on the same file a second time, the second run
starting from the entity store the first run produced. -/
def icRunTwice (store : ICStore) (rows : List (List String)) (today : String) :
    Except String (ICStore × ICStats) :=
  match icRun store rows today with
  | .ok (s, _) => icRun s rows today
  | .error e => .error e

/-- The `(holder, status)` pairs of the callings in the store after a
finished run. -/
def icRunCallingStates (r : Except String (ICStore × ICStats)) :
    Option (List (String × String)) :=
  match r with
  | .ok (s, _) => some (s.callings.map (fun c => (c.member, c.status)))
  | .error _ => none

/-! # Theorems -/

/-! ## Claim C1: auto-approval on save -/

/-- C1: for a Calling with status PENDING, setting `presidency_approved` to a
date and saving advances the status to APPROVED with that date stamped, and
repeating the same save with the same date changes nothing further
(idempotent); a Calling whose status is not PENDING keeps its status when
`presidency_approved` is set and saved. -/
theorem calling_save_auto_approval (c : LifecycleCalling) (d : Date) :
    (c.status = "PENDING" →
      (callingSave (setPresidencyApproved c d)).status = "APPROVED" ∧
      (callingSave (setPresidencyApproved c d)).presidency_approved = some d ∧
      callingSave (setPresidencyApproved (callingSave (setPresidencyApproved c d)) d) =
        callingSave (setPresidencyApproved c d)) ∧
    (c.status ≠ "PENDING" →
      (callingSave (setPresidencyApproved c d)).status = c.status) := by
  constructor
  · intro h
    simp [callingSave, setPresidencyApproved, h]
  · intro h
    simp [callingSave, setPresidencyApproved, h]

/-- Witness: the auto-approval theorem applied to a concrete PENDING calling
and a concrete non-PENDING calling. -/
theorem calling_save_auto_approval_witness :
    (callingSave (setPresidencyApproved ⟨"PENDING", none⟩ 20250629)).status = "APPROVED" ∧
    (callingSave (setPresidencyApproved ⟨"CALLED", none⟩ 20250629)).status = "CALLED" :=
  ⟨((calling_save_auto_approval ⟨"PENDING", none⟩ 20250629).1 rfl).1,
   (calling_save_auto_approval ⟨"CALLED", none⟩ 20250629).2 (by decide)⟩

/-! ## Claim C5: group permissions -/

/-- C5 counterexample: a non-superuser whose only group is "Leadership" is
NOT denied the edit capability — `can_edit_calling` is true for that user
(`is_leadership` includes the Leadership group), contradicting the claim that
both edit and delete evaluate to false for such a user. -/
theorem leadership_user_can_edit_cex :
    (AppUser.mk false ["Leadership"]).is_superuser = false ∧
    can_edit_calling (AppUser.mk false ["Leadership"]) = true := by
  decide

/-- C5 amended: a non-superuser whose only group is "Leadership" has the edit
capability (true) and is denied delete; a non-superuser whose only group is
"Bishop" has edit and approve (true) and is denied delete. -/
theorem permissions_amended (u v : AppUser)
    (hu1 : u.is_superuser = false) (hu2 : u.group_names = ["Leadership"])
    (hv1 : v.is_superuser = false) (hv2 : v.group_names = ["Bishop"]) :
    (can_edit_calling u = true ∧ can_delete_calling u = false) ∧
    (can_edit_calling v = true ∧ can_approve_calling v = true ∧
      can_delete_calling v = false) := by
  cases u
  cases v
  subst hu1
  subst hu2
  subst hv1
  subst hv2
  decide

/-- Witness: the amended permission facts at the two concrete users. -/
theorem permissions_amended_witness :
    (can_edit_calling ⟨false, ["Leadership"]⟩ = true ∧
      can_delete_calling ⟨false, ["Leadership"]⟩ = false) ∧
    (can_edit_calling ⟨false, ["Bishop"]⟩ = true ∧
      can_approve_calling ⟨false, ["Bishop"]⟩ = true ∧
      can_delete_calling ⟨false, ["Bishop"]⟩ = false) :=
  permissions_amended ⟨false, ["Leadership"]⟩ ⟨false, ["Bishop"]⟩ rfl rfl rfl rfl

/-! ## Claim C2: the release operation's validation -/

/-- C2 counterexample: a release submission whose `date_released` precedes
the calling's `date_called` passes the release form's validation (no error at
all) and the release succeeds — the release path has no date-ordering check,
contradicting the claim that it fails with a ValidationError in that case. -/
theorem release_date_order_unchecked_cex :
    releaseFormErrors (some 20250105) (some "Moving away") = [] ∧
    (20250105 : Date) < 20250110 ∧
    (releaseFormSubmit ⟨some 20250110, none, none, none, "ACTIVE", none⟩
        20250105 "Moving away" 20250629).calling_status = "RELEASED" ∧
    (releaseFormSubmit ⟨some 20250110, none, none, none, "ACTIVE", none⟩
        20250105 "Moving away" 20250629).date_called = some 20250110 := by
  refine ⟨rfl, by norm_num, rfl, rfl⟩

/-- C2 amended: the release operation fails with a ValidationError exactly
when `release_notes` or `date_released` is absent; it performs no comparison
of `date_released` against `date_called`; on success it sets the calling's
status to RELEASED and stamps `date_released` (with the processing date). -/
theorem release_validation_amended (dr : Option Date) (notes : Option String)
    (c : ModelCalling) (sdr sn_today : Date) (sn : String) :
    (releaseFormErrors dr notes = [] ↔ (dr ≠ none ∧ notes ≠ none)) ∧
    ((releaseFormSubmit c sdr sn sn_today).calling_status = "RELEASED" ∧
      (releaseFormSubmit c sdr sn sn_today).date_released = some sn_today) := by
  refine ⟨?_, rfl, rfl⟩
  cases dr <;> cases notes <;> simp [releaseFormErrors]

/-- Witness: the amended release-validation facts at a concrete submission. -/
theorem release_validation_amended_witness :
    (releaseFormErrors (some 20250601) (some "Moving out") = [] ↔
      ((some 20250601 : Option Date) ≠ none ∧ (some "Moving out" : Option String) ≠ none)) ∧
    ((releaseFormSubmit ⟨none, none, none, none, "ACTIVE", none⟩
        20250601 "Moving out" 20250629).calling_status = "RELEASED" ∧
      (releaseFormSubmit ⟨none, none, none, none, "ACTIVE", none⟩
        20250601 "Moving out" 20250629).date_released = some 20250629) :=
  release_validation_amended (some 20250601) (some "Moving out")
    ⟨none, none, none, none, "ACTIVE", none⟩ 20250601 20250629 "Moving out"

/-! ## Claim C10: the release view overrides the submitted date -/

/-- C10: for every valid submission to the release view, the saved calling's
`date_released` is the processing date (`timezone.now().date()`), regardless
of the submitted `date_released`; the submitted `release_notes` is saved
unchanged and `calling_status` becomes RELEASED. -/
theorem release_view_stamps_today (c : ModelCalling) (sdr today : Date) (sn : String)
    (hvalid : releaseFormErrors (some sdr) (some sn) = []) :
    (releaseFormSubmit c sdr sn today).date_released = some today ∧
    (releaseFormSubmit c sdr sn today).release_notes = some sn ∧
    (releaseFormSubmit c sdr sn today).calling_status = "RELEASED" :=
  ⟨rfl, rfl, rfl⟩

/-- Witness: the release-view theorem at a concrete submission whose
submitted date differs from the processing date. -/
theorem release_view_stamps_today_witness :
    (releaseFormSubmit ⟨some 20250101, none, none, none, "ACTIVE", none⟩
        20250601 "Thanks for serving" 20250629).date_released = some 20250629 ∧
    (releaseFormSubmit ⟨some 20250101, none, none, none, "ACTIVE", none⟩
        20250601 "Thanks for serving" 20250629).release_notes = some "Thanks for serving" ∧
    (releaseFormSubmit ⟨some 20250101, none, none, none, "ACTIVE", none⟩
        20250601 "Thanks for serving" 20250629).calling_status = "RELEASED" :=
  release_view_stamps_today ⟨some 20250101, none, none, none, "ACTIVE", none⟩
    20250601 20250629 "Thanks for serving" rfl

/-! ## Claim C6: date-order validation of `CallingForm.clean` -/

/-- C6: `CallingForm.clean` raises a date-ordering error exactly when a
present `date_sustained` precedes a present `date_called`, or a present
`date_set_apart` precedes a present `date_sustained`, or a present
`date_released` precedes a present `date_called`; combinations with any of
the compared dates absent are not rejected on that ground. -/
theorem calling_form_date_order_iff (dc ds dsa dr : Option Date) (cs : String) :
    ((callingFormCleanErrors dc ds dsa dr cs).any isDateOrderError = true) ↔
      ((∃ a b, dc = some a ∧ ds = some b ∧ b < a) ∨
       (∃ b e, ds = some b ∧ dsa = some e ∧ e < b) ∨
       (∃ a f, dc = some a ∧ dr = some f ∧ f < a)) := by
  cases dc <;> cases ds <;> cases dsa <;> cases dr <;>
    simp only [callingFormCleanErrors, sustainedErr, setApartErr, releasedErr,
      activeStatusErr, releasedStatusErr, List.any_append, Bool.or_eq_true,
      List.any_nil, List.any_cons] <;>
    split_ifs <;>
    simp_all [isDateOrderError]

/-- Witness: the date-order characterization at a concrete rejected
combination (sustained before called). -/
theorem calling_form_date_order_iff_witness :
    ((callingFormCleanErrors (some 20250110) (some 20250105) none none "ACTIVE").any
        isDateOrderError = true) ↔
      ((∃ a b, (some 20250110 : Option Date) = some a ∧
          (some 20250105 : Option Date) = some b ∧ b < a) ∨
       (∃ b e, (some 20250105 : Option Date) = some b ∧
          (none : Option Date) = some e ∧ e < b) ∨
       (∃ a f, (some 20250110 : Option Date) = some a ∧
          (none : Option Date) = some f ∧ f < a)) :=
  calling_form_date_order_iff (some 20250110) (some 20250105) none none "ACTIVE"

/-! ## Claim C3: carry-forward state across rows -/

/-- C3 counterexample: the completed-callings importer does NOT reset the
carried Organization when a row's Unit cell is non-empty.  Processing a row
with a new Unit and a blank Organization cell while "Relief Society" is the
carried organization produces a Calling under "Relief Society" (and the row
is not skipped); under the claimed reset the organization would have been
cleared before the Organization cell is read, and the row skipped as missing
its organization. -/
theorem completed_import_org_not_reset_cex :
    (processCompletedRow emptyCStore initCStats (some "Twin Falls 1st Ward")
        (some "Relief Society") ["Twin Falls 2nd Ward", "", "Clerk", "Bob Jones"]).store.callings.map
      (fun c => (c.organization, c.unit, c.name)) =
      [("Relief Society", "Twin Falls 2nd Ward", "Bob Jones")] ∧
    (processCompletedRow emptyCStore initCStats (some "Twin Falls 1st Ward")
        (some "Relief Society") ["Twin Falls 2nd Ward", "", "Clerk", "Bob Jones"]).stats.rows_skipped = 0 ∧
    (processCompletedRow emptyCStore initCStats (some "Twin Falls 1st Ward")
        (some "Relief Society") ["Twin Falls 2nd Ward", "", "Clerk", "Bob Jones"]).co =
      some "Relief Society" := ⟨rfl, rfl, rfl⟩

/-- C3 amended: in both importers a row with an empty Unit cell inherits the
carried Unit, and an empty Organization cell inherits the carried
Organization; in `import_callings` a non-empty Unit cell additionally resets
the carried Organization to empty before that row's Organization cell is
read; `import_completed_callings` keeps the carried Organization unchanged
even when the Unit cell is non-empty. -/
theorem carry_forward_amended (cu co : Option String) (c0 c1 : String)
    (d0 : Option String) :
    (icCarryStep cu co "" "" = (cu, co)) ∧
    (c1 ≠ "" → icCarryStep cu co "" c1 = (cu, some c1)) ∧
    (c0 ≠ "" → icCarryStep cu co c0 c1 = (some c0, if c1 != "" then some c1 else none)) ∧
    (ccCarryStep cu co none none = (cu, co)) ∧
    ((ccCarryStep cu co d0 none).2 = co) := by
  refine ⟨by simp [icCarryStep], ?_, ?_, rfl, ?_⟩
  · intro h
    simp [icCarryStep, h]
  · intro h
    simp only [icCarryStep, bne_iff_ne, ne_eq, h, not_false_eq_true, if_true]
  · cases d0 <;> rfl

/-- Witness: the carry-forward facts at concrete carried values and cells. -/
theorem carry_forward_amended_witness :
    icCarryStep (some "A Ward") (some "Primary") "" "" = (some "A Ward", some "Primary") ∧
    icCarryStep (some "A Ward") (some "Primary") "" "Young Men" =
      (some "A Ward", some "Young Men") ∧
    icCarryStep (some "A Ward") (some "Primary") "B Ward" "Young Men" =
      (some "B Ward", some "Young Men") ∧
    ccCarryStep (some "A Ward") (some "Primary") none none = (some "A Ward", some "Primary") ∧
    (ccCarryStep (some "A Ward") (some "Primary") (some "B Ward") none).2 = some "Primary" := by
  have h1 := carry_forward_amended (some "A Ward") (some "Primary") "" "Young Men" (some "B Ward")
  have h2 := carry_forward_amended (some "A Ward") (some "Primary") "B Ward" "Young Men" (some "B Ward")
  refine ⟨h1.1, h1.2.1 (by decide), ?_, h1.2.2.2.1, h2.2.2.2.2⟩
  simpa using h2.2.2.1 (by decide)

/-! ## Claim C4: the date-like holder-name guard -/

/-- C4 counterexample: `import_callings` applies no date-like-name filter.  A
row whose Name column is the date-like string "06/29/2025" is not skipped
(`rows_skipped` stays 0) and a Calling whose holder is "06/29/2025" IS
created from it, contradicting the claim for that import command. -/
theorem import_callings_datelike_not_skipped_cex :
    looks_like_date "06/29/2025" = true ∧
    icRunSkipped (icRun emptyICStore
      [["Twin Falls 1st Ward", "Relief Society", "President", "", "", "", "06/29/2025"]]
      "2025-06-29") = some 0 ∧
    icRunCallingMembers (icRun emptyICStore
      [["Twin Falls 1st Ward", "Relief Society", "President", "", "", "", "06/29/2025"]]
      "2025-06-29") = some ["06/29/2025"] := ⟨rfl, rfl, rfl⟩

/-- C4 amended: the date-like guard lives in `import_completed_callings`
only: for every row whose Currently-Called cell passes the presence checks
but looks like a date (a digit plus `/` or `-`), that importer skips the row,
increments `rows_skipped`, and neither creates nor updates any Calling from
it.  (`import_callings` has no such filter.) -/
theorem completed_datelike_skip_amended (store : CStore) (stats : CStats) (u o pt m : String)
    (r : List (Option String))
    (h2 : cellAt r 2 = some pt) (h3 : cellAt r 3 = some m)
    (hval : (["", "n/a", "vacant"].contains (pyStrip (strLower m))) = false)
    (hdate : looks_like_date (pyStrip m) = true) :
    (ccProcessBody store stats u o r).1.callings = store.callings ∧
    (ccProcessBody store stats u o r).2.rows_skipped = stats.rows_skipped + 1 := by
  unfold ccProcessBody
  simp only [h2, h3, hval, hdate]
  exact ⟨rfl, rfl⟩

/-- Witness: the completed importer's guard at the spec's concrete scenario
row (Unit "Twin Falls 1st Ward", Organization "Relief Society", Position
"President", Currently-Called "06/29/2025"). -/
theorem completed_datelike_skip_amended_witness :
    (ccProcessBody emptyCStore initCStats "Twin Falls 1st Ward" "Relief Society"
      (normalizeRow ["Twin Falls 1st Ward", "Relief Society", "President",
        "06/29/2025"])).1.callings = emptyCStore.callings ∧
    (ccProcessBody emptyCStore initCStats "Twin Falls 1st Ward" "Relief Society"
      (normalizeRow ["Twin Falls 1st Ward", "Relief Society", "President",
        "06/29/2025"])).2.rows_skipped = initCStats.rows_skipped + 1 :=
  completed_datelike_skip_amended emptyCStore initCStats "Twin Falls 1st Ward"
    "Relief Society" "President" "06/29/2025"
    (normalizeRow ["Twin Falls 1st Ward", "Relief Society", "President", "06/29/2025"])
    rfl rfl rfl rfl

/-! ## Claim C8: row-level error containment -/

/-- C8 counterexample: a file whose (existing) content has the single data
row `["x"]` — one non-empty cell — aborts `import_callings` with an uncaught
IndexError from the unguarded `row[1]` access outside the `try` block; the
command does not run to completion and prints no summary. -/
theorem import_callings_short_row_aborts_cex :
    icRun emptyICStore [["x"]] "2025-06-29" = .error "IndexError: row[1]" := rfl

/-- A data row that is entirely blank, or that has at least the three cells
read outside the `try` block, cannot abort `import_callings`. -/
lemma icProcessRow_ok (store : ICStore) (stats : ICStats) (cu co : Option String)
    (row : List String) (today : String)
    (h : row.any (fun c => c != "") = false ∨ 3 ≤ row.length) :
    isOkE (icProcessRow store stats cu co row today) = true := by
  rcases h with hb | hl
  · simp [icProcessRow, hb, isOkE]
  · have l0 : (row.map pyStrip).get? 0 = some ((row.map pyStrip).get ⟨0, by simp; omega⟩) :=
      List.get?_eq_get _
    have l1 : (row.map pyStrip).get? 1 = some ((row.map pyStrip).get ⟨1, by simp; omega⟩) :=
      List.get?_eq_get _
    have l2 : (row.map pyStrip).get? 2 = some ((row.map pyStrip).get ⟨2, by simp; omega⟩) :=
      List.get?_eq_get _
    simp only [icProcessRow, l0, l1, l2]
    split
    · rfl
    · split
      · rfl
      · split
        · rfl
        · split
          · rfl
          · rfl

/-- The row loop completes on blank-or-wide-enough rows. -/
lemma icRunRows_ok (rows : List (List String)) :
    ∀ (store : ICStore) (stats : ICStats) (cu co : Option String) (today : String),
    (∀ r ∈ rows, r.any (fun c => c != "") = false ∨ 3 ≤ r.length) →
    isOkE (icRunRows store stats cu co rows today) = true := by
  induction rows with
  | nil => exact fun store stats cu co today _ => rfl
  | cons row rest ih =>
    intro store stats cu co today h
    have hok := icProcessRow_ok store stats cu co row today (h row (List.mem_cons_self _ _))
    cases hx : icProcessRow store stats cu co row today with
    | error e => rw [hx] at hok; exact absurd hok (by simp [isOkE])
    | ok x =>
      have := ih x.store x.stats x.cu x.co today (fun r hr => h r (List.mem_cons_of_mem _ hr))
      simpa [icRunRows, hx] using this

/-- C8 amended: `import_completed_callings` wraps each row's whole processing
in its `try` block, but `import_callings` reads `row[0]`, `row[1]` and
`row[2]` before entering its `try` block, so only files whose data rows are
each blank or at least three cells wide are guaranteed to run to completion
and reach the summary; a narrower non-blank row aborts the run (see the
counterexample). -/
theorem import_callings_wellformed_completes (store : ICStore)
    (rows : List (List String)) (today : String)
    (hrows : ∀ r ∈ rows, r.any (fun c => c != "") = false ∨ 3 ≤ r.length) :
    isOkE (icRun store rows today) = true :=
  icRunRows_ok rows (icDefaultData store) initICStats none none today hrows

/-- Witness: a concrete two-row file (one well-formed data row, one blank
row) on which the run completes. -/
theorem import_callings_wellformed_completes_witness :
    isOkE (icRun emptyICStore
      [["Twin Falls 1st Ward", "Relief Society", "President", "", "", "", "Jane Doe"],
       ["", "", ""]] "2025-06-29") = true :=
  import_callings_wellformed_completes emptyICStore
    [["Twin Falls 1st Ward", "Relief Society", "President", "", "", "", "Jane Doe"],
     ["", "", ""]] "2025-06-29" (by decide)

/-! ## Claim C9: per-entity-kind counters -/

/-- C9: the `members_created` counter of `import_callings` does NOT count only
holder-record creations: processing the same called-member row twice leaves
exactly one Member record ("John Doe") in the store while `members_created`
ends at 2 — the source increments the counter whenever a holder name is
present, discarding `get_or_create`'s created flag (spec and the printed
"Members created:" summary label say it counts created records). -/
theorem members_created_overcounts :
    icRunMembersCreated (icRun emptyICStore
      [["Ward X", "Relief Society", "Teacher", "", "", "", "John Doe"],
       ["Ward X", "Relief Society", "Teacher", "", "", "", "John Doe"]] "2025-06-29") = some 2 ∧
    icRunMemberNames (icRun emptyICStore
      [["Ward X", "Relief Society", "Teacher", "", "", "", "John Doe"],
       ["Ward X", "Relief Society", "Teacher", "", "", "", "John Doe"]] "2025-06-29") =
      some ["John Doe"] := ⟨rfl, rfl⟩

/-! ## Claim C7: upsert idempotence of the importers -/

/-- C7 counterexample: `import_callings` is NOT idempotent on the entity
store.  Re-importing a row that names the same person in both the
Currently-Called column (`row[3]`) and the Name column (`row[6]`): the first
run creates one ACTIVE Calling for "John Doe"; the second run's release
branch marks that calling RELEASED (`release_existing_calling`, keyed on
`status='ACTIVE'`), after which `create_new_calling`'s `get_or_create` —
also keyed on `status='ACTIVE'` — finds no match and creates a SECOND
Calling record, so the second run changes the store and adds a new Calling,
contradicting the claim. -/
theorem import_callings_reimport_not_idempotent_cex :
    icRunCallingStates (icRun emptyICStore
      [["Ward X", "Relief Society", "Teacher", "John Doe", "", "", "John Doe"]]
      "2025-06-29") = some [("John Doe", "ACTIVE")] ∧
    icRunCallingStates (icRunTwice emptyICStore
      [["Ward X", "Relief Society", "Teacher", "John Doe", "", "", "John Doe"]]
      "2025-06-29") = some [("John Doe", "RELEASED"), ("John Doe", "ACTIVE")] := ⟨rfl, rfl⟩

lemma unitKey_self (u ty : String) : unitKey u ⟨u, ty⟩ = true := by simp [unitKey]

lemma orgKey_self (o : String) : orgKey o ⟨o⟩ = true := by simp [orgKey]

lemma posTitleKey_self (t : String) (l : Bool) : posTitleKey t ⟨t, l⟩ = true := by
  simp [posTitleKey]

lemma sameCallingKey_self (a : CCalling) : sameCallingKey a a = true := by
  simp [sameCallingKey]

/-- After a `get_or_create`, a record matching the key is present. -/
lemma dgoc_self_mem (key : α → Bool) (mk : α) (xs : List α) (h : key mk = true) :
    ((djangoGetOrCreate key mk xs).1).any key = true := by
  unfold djangoGetOrCreate
  split
  · next hx => simpa using hx
  · simp [h]

/-- `get_or_create` on a table already containing the key changes nothing and
reports `created = False`. -/
lemma dgoc_found (key : α → Bool) (mk : α) (xs : List α) (h : xs.any key = true) :
    djangoGetOrCreate key mk xs = (xs, false) := by
  simp [djangoGetOrCreate, h]

/-- Re-running a `get_or_create` is the identity on the table. -/
lemma dgoc_fst_idem (key : α → Bool) (mk mk2 : α) (xs : List α) (h : key mk = true) :
    djangoGetOrCreate key mk2 (djangoGetOrCreate key mk xs).1 =
      ((djangoGetOrCreate key mk xs).1, false) :=
  dgoc_found key mk2 _ (dgoc_self_mem key mk xs h)

lemma map_replace_id (key : α → Bool) (data : α) (xs : List α) (h : xs.any key = false) :
    (xs.map fun x => if key x then data else x) = xs := by
  induction xs with
  | nil => rfl
  | cons a t ih =>
    simp only [List.any_cons, Bool.or_eq_false_iff] at h
    simp [h.1, ih h.2]

/-- Re-running an `update_or_create` with the same key and the same field
values is the identity on the table and reports `created = False`. -/
lemma duoc_idem (key : α → Bool) (data : α) (xs : List α) (h : key data = true) :
    djangoUpdateOrCreate key data (djangoUpdateOrCreate key data xs).1 =
      ((djangoUpdateOrCreate key data xs).1, false) := by
  by_cases hx : xs.any key = true
  · have h2 : ((xs.map fun x => if key x then data else x).any key) = true := by
      rcases List.any_eq_true.1 hx with ⟨x, hmem, hkx⟩
      refine List.any_eq_true.2 ⟨data, List.mem_map.2 ⟨x, hmem, by simp [hkx]⟩, h⟩
    simp only [djangoUpdateOrCreate, hx, if_true, h2]
    rw [List.map_map]
    congr 1
    apply List.map_congr_left
    intro x _
    by_cases hkx : key x = true
    · simp [Function.comp, hkx, h]
    · simp only [Bool.not_eq_true] at hkx
      simp [Function.comp, hkx]
  · simp only [Bool.not_eq_true] at hx
    have h2 : ((xs ++ [data]).any key) = true := by simp [h]
    simp [djangoUpdateOrCreate, hx, h2, List.map_append, map_replace_id key data xs hx, h]

/-- Resolving a Unit/Organization pair that already exists changes neither
the store nor the counters. -/
lemma ccResolveUnitOrg_found (s : CStore) (st : CStats) (u o : String)
    (hu : s.units.any (unitKey u) = true) (ho : s.orgs.any (orgKey o) = true) :
    ccResolveUnitOrg s st u o = (s, st) := by
  simp [ccResolveUnitOrg, dgoc_found, hu, ho]

lemma ccResolveUnitOrg_post_units (s : CStore) (st : CStats) (u o : String) :
    ((ccResolveUnitOrg s st u o).1).units.any (unitKey u) = true := by
  unfold ccResolveUnitOrg
  exact dgoc_self_mem _ _ _ (unitKey_self u _)

lemma ccResolveUnitOrg_post_orgs (s : CStore) (st : CStats) (u o : String) :
    ((ccResolveUnitOrg s st u o).1).orgs.any (orgKey o) = true := by
  unfold ccResolveUnitOrg
  exact dgoc_self_mem _ _ _ (orgKey_self o)

/-- The position/member/calling part of a row touches neither the Unit nor
the Organization table. -/
lemma ccProcessBody_preserve (s : CStore) (st : CStats) (u o : String)
    (r : List (Option String)) :
    (ccProcessBody s st u o r).1.units = s.units ∧
    (ccProcessBody s st u o r).1.orgs = s.orgs := by
  cases h2 : cellAt r 2 with
  | none => simp [ccProcessBody, h2]
  | some pt =>
    cases h3 : cellAt r 3 with
    | none => simp [ccProcessBody, h2, h3]
    | some m =>
      by_cases hval : (pyStrip (strLower m) = "" ∨ pyStrip (strLower m) = "n/a" ∨
        pyStrip (strLower m) = "vacant")
      · simp [ccProcessBody, h2, h3, hval]
      · by_cases hdate : looks_like_date (pyStrip m) = true
        · simp [ccProcessBody, h2, h3, hval, hdate]
        · simp [ccProcessBody, h2, h3, hval, hdate]

/-- Re-running the position/member/calling part of a row on its own output
store is the identity on the store. -/
lemma ccProcessBody_idem (s : CStore) (st st2 : CStats) (u o : String)
    (r : List (Option String)) :
    (ccProcessBody (ccProcessBody s st u o r).1 st2 u o r).1 = (ccProcessBody s st u o r).1 := by
  cases h2 : cellAt r 2 with
  | none => simp [ccProcessBody, h2]
  | some pt =>
    cases h3 : cellAt r 3 with
    | none =>
      simp [ccProcessBody, h2, h3, dgoc_fst_idem, posTitleKey_self]
    | some m =>
      by_cases hval : (pyStrip (strLower m) = "" ∨ pyStrip (strLower m) = "n/a" ∨
        pyStrip (strLower m) = "vacant")
      · simp [ccProcessBody, h2, h3, hval, dgoc_fst_idem, posTitleKey_self]
      · by_cases hdate : looks_like_date (pyStrip m) = true
        · simp [ccProcessBody, h2, h3, hval, hdate, dgoc_fst_idem, posTitleKey_self]
        · simp [ccProcessBody, h2, h3, hval, hdate, dgoc_fst_idem, posTitleKey_self,
            duoc_idem, sameCallingKey_self]

/-- Re-running a row's non-skip path (entity resolution plus calling
reconciliation) on its own output store is the identity on the store. -/
lemma cc_main_idem (store : CStore) (stats stats2 : CStats) (u o : String)
    (r : List (Option String)) :
    (ccProcessBody (ccResolveUnitOrg (ccProcessBody (ccResolveUnitOrg store stats u o).1
        (ccResolveUnitOrg store stats u o).2 u o r).1 stats2 u o).1
      (ccResolveUnitOrg (ccProcessBody (ccResolveUnitOrg store stats u o).1
        (ccResolveUnitOrg store stats u o).2 u o r).1 stats2 u o).2 u o r).1 =
    (ccProcessBody (ccResolveUnitOrg store stats u o).1
      (ccResolveUnitOrg store stats u o).2 u o r).1 := by
  have hu : ((ccProcessBody (ccResolveUnitOrg store stats u o).1
      (ccResolveUnitOrg store stats u o).2 u o r).1).units.any (unitKey u) = true := by
    rw [(ccProcessBody_preserve _ _ _ _ _).1]
    exact ccResolveUnitOrg_post_units store stats u o
  have ho : ((ccProcessBody (ccResolveUnitOrg store stats u o).1
      (ccResolveUnitOrg store stats u o).2 u o r).1).orgs.any (orgKey o) = true := by
    rw [(ccProcessBody_preserve _ _ _ _ _).2]
    exact ccResolveUnitOrg_post_orgs store stats u o
  rw [ccResolveUnitOrg_found _ stats2 u o hu ho]
  exact ccProcessBody_idem _ _ _ _ _ _

/-- C7 amended: re-importing the same CSV row (same row, same carried state,
as a second run over the same file produces) is idempotent on the entity
store for the `import_completed_callings` command — the second run leaves
the Unit, Organization, Position and Calling tables exactly as the first run
left them, so it creates no new record of any kind
(`update_or_create`/`get_or_create` upsert idempotence).  The `import_callings`
command has no such guarantee: its Calling lookup is keyed on
`status='ACTIVE'`, which its own release branch invalidates (see the
counterexample). -/
theorem completed_import_row_idempotent (store : CStore) (stats stats2 : CStats)
    (cu co : Option String) (row : List String) :
    (processCompletedRow (processCompletedRow store stats cu co row).store
        stats2 cu co row).store =
      (processCompletedRow store stats cu co row).store := by
  by_cases hb : (row.any fun c => c != "") = false
  · simp [processCompletedRow, hb]
  · by_cases hf : (pyFalsy (ccCarryStep cu co (cellAt (normalizeRow row) 0)
        (cellAt (normalizeRow row) 1)).1 ||
      pyFalsy (ccCarryStep cu co (cellAt (normalizeRow row) 0)
        (cellAt (normalizeRow row) 1)).2) = true
    · simp [processCompletedRow, hb, hf]
    · simp only [processCompletedRow, if_neg hb, if_neg hf]
      exact cc_main_idem store stats stats2 _ _ _
